import Mathlib

/-!
Verification of the sidecar supervision core of `project-dawn`
(`src/src-tauri/src/main.rs`), via a shallow embedding in Lean 4.

File contents are modelled as `List Char` (text) and `List Nat` (bytes,
each `< 256` in practice, though nothing below depends on that bound).
The external SHA-256 implementation (the `sha2` crate) is abstracted as a
function parameter `sha : List Nat → List Nat`; the streaming loop of
`verify_sidecar_integrity` is embedded faithfully (1 MiB chunks fed into
an accumulator, finalised at the end), so that the incremental-hash law
`update*; finalize = sha (whole input)` is a theorem here, not an
assumption.
-/

namespace ProjectDawn

/-- Hex digit value of a character, as decoded by the `hex` crate
(`Vec::from_hex`), which accepts both lower- and upper-case digits. -/
def hexVal (c : Char) : Option Nat :=
  if '0' ≤ c ∧ c ≤ '9' then some (c.toNat - '0'.toNat)
  else if 'a' ≤ c ∧ c ≤ 'f' then some (c.toNat - 'a'.toNat + 10)
  else if 'A' ≤ c ∧ c ≤ 'F' then some (c.toNat - 'A'.toNat + 10)
  else none

/-- `Vec::from_hex` on a token: an even-length string of hex digits
decodes to bytes, anything else is a decode failure. -/
def fromHexChars : List Char → Option (List Nat)
  | [] => some []
  | [_] => none
  | c1 :: c2 :: rest =>
    match hexVal c1, hexVal c2, fromHexChars rest with
    | some h, some l, some tail => some ((16 * h + l) :: tail)
    | _, _, _ => none

/-- Accumulator form of Rust's `str::split_whitespace`: maximal runs of
non-whitespace characters, in order, empty runs dropped. -/
def splitWSAux : List Char → List Char → List (List Char)
  | [], cur => if cur = [] then [] else [cur.reverse]
  | c :: cs, cur =>
    if c.isWhitespace then
      if cur = [] then splitWSAux cs []
      else cur.reverse :: splitWSAux cs []
    else splitWSAux cs (c :: cur)

/-- Rust's `str::split_whitespace` collected to a list of tokens. -/
def splitWS (l : List Char) : List (List Char) := splitWSAux l []

/-- `read_checksum` (main.rs:68-78): take the first whitespace-delimited
token of the digest file and hex-decode it.  The file-read step itself is
outside this function's scope here; its input is the file text. -/
def read_checksum (contents : List Char) : Except String (List Nat) :=
  match splitWS contents with
  | [] => Except.error "Checksum file missing digest"
  | tok :: _ =>
    match fromHexChars tok with
    | none => Except.error "Invalid checksum format"
    | some bytes => Except.ok bytes

/-- The 1 MiB read-buffer size of the streaming loop (main.rs:95). -/
def chunkSize : Nat := 1024 * 1024

/-- The streaming loop of `verify_sidecar_integrity` (main.rs:96-102):
repeatedly take the next chunk of at most `chunkSize` bytes and feed it
into the hash accumulator (`acc` holds the bytes fed so far; feeding a
chunk is `Sha256::update`, i.e. appending it to the absorbed stream). -/
def hashFeed (acc : List Nat) (data : List Nat) : List Nat :=
  if h : data = [] then acc
  else hashFeed (acc ++ data.take chunkSize) (data.drop chunkSize)
termination_by data.length
decreasing_by
  have hpos : 0 < data.length := List.length_pos.mpr h
  have : data.length - chunkSize < data.length :=
    Nat.sub_lt hpos (by decide)
  simpa [List.length_drop] using this

/-- `verify_sidecar_integrity` (main.rs:80-108), after path resolution:
inputs are the executable file's bytes (`none` = file absent) and the
digest file's text (`none` = file absent); `sha` abstracts the SHA-256
function of the `sha2` crate. -/
def verify_sidecar_integrity (sha : List Nat → List Nat)
    (exeFile : Option (List Nat)) (checksumFile : Option (List Char)) :
    Except String Unit :=
  match exeFile with
  | none => Except.error "Sidecar executable not found"
  | some exeBytes =>
    match checksumFile with
    | none => Except.error "Sidecar checksum not found"
    | some contents =>
      match read_checksum contents with
      | Except.error e => Except.error e
      | Except.ok expected =>
        let actual := sha (hashFeed [] exeBytes)
        if actual ≠ expected then Except.error "Sidecar checksum mismatch"
        else Except.ok ()

theorem hashFeed_eq_append :
    ∀ (n : Nat) (data : List Nat), data.length ≤ n →
      ∀ acc, hashFeed acc data = acc ++ data := by
  intro n
  induction n with
  | zero =>
    intro data hlen acc
    have hnil : data = [] := List.eq_nil_of_length_eq_zero (Nat.le_zero.mp hlen)
    rw [hashFeed]
    simp [hnil]
  | succ m ih =>
    intro data hlen acc
    rw [hashFeed]
    by_cases hnil : data = []
    · simp [hnil]
    · simp only [hnil, dite_false]
      have hpos : 0 < data.length := List.length_pos.mpr hnil
      have hlt : (data.drop chunkSize).length ≤ m := by
        have : data.length - chunkSize < data.length :=
          Nat.sub_lt hpos (by decide)
        have := Nat.lt_of_lt_of_le this hlen
        simpa [List.length_drop] using Nat.le_of_lt_succ this
      rw [ih _ hlt]
      simp [List.take_append_drop]

/-- Feeding a file in 1 MiB chunks absorbs exactly the file's bytes. -/
theorem hashFeed_nil (data : List Nat) : hashFeed [] data = data := by
  simpa using hashFeed_eq_append data.length data (Nat.le_refl _) []

/-- `SidecarState` (main.rs:17-22).  The process handle (`CommandChild`)
is modelled by an opaque numeric identifier. -/
structure SidecarState where
  process : Option Nat
  port : Nat
  health_task_running : Bool
  resource_task_running : Bool
deriving DecidableEq, Repr

/-- `SidecarState::new` (main.rs:24-33). -/
def SidecarState.new : SidecarState :=
  { process := none
    port := 8000
    health_task_running := false
    resource_task_running := false }

/-- `start_health_monitor` (main.rs:110-130).  The function holds the
state lock across the flag check and the flag set (a single
`state.lock().await` acquisition, main.rs:111-117), so the whole
check-and-set is one atomic step on the state.  The returned `Bool`
records whether a new monitoring loop was spawned by this call. -/
def start_health_monitor (s : SidecarState) : SidecarState × Bool :=
  if s.health_task_running then (s, false)
  else ({ s with health_task_running := true }, true)

/-- `start_resource_monitor` (main.rs:299-342), lifecycle part only: one
lock acquisition covers the flag check and set (main.rs:300-305); the
returned `Bool` records whether a new sampling loop was spawned. -/
def start_resource_monitor (s : SidecarState) : SidecarState × Bool :=
  if s.resource_task_running then (s, false)
  else ({ s with resource_task_running := true }, true)

/-- `n` successive calls of `start_health_monitor`, returning the final
state and how many calls actually spawned a loop. -/
def runHealthStarts : SidecarState → Nat → SidecarState × Nat
  | s, 0 => (s, 0)
  | s, n + 1 =>
    let r := start_health_monitor s
    let t := runHealthStarts r.1 n
    (t.1, (if r.2 then 1 else 0) + t.2)

/-- `n` successive calls of `start_resource_monitor`, returning the final
state and how many calls actually spawned a loop. -/
def runResourceStarts : SidecarState → Nat → SidecarState × Nat
  | s, 0 => (s, 0)
  | s, n + 1 =>
    let r := start_resource_monitor s
    let t := runResourceStarts r.1 n
    (t.1, (if r.2 then 1 else 0) + t.2)

/-- Outcome of the OS-level spawn attempt in `start_sidecar`
(main.rs:153-157): either a child handle or an error message. -/
inductive SpawnOutcome where
  | ok (handle : Nat)
  | fail (msg : String)
deriving DecidableEq, Repr

/-- Observable effects of one `start_sidecar` call: resulting shared
state, returned value, whether integrity verification was run, whether a
child process was spawned, and whether the health-monitor /
resource-monitor start sequences were invoked. -/
structure StartResult where
  state : SidecarState
  result : Except String Bool
  verified : Bool
  spawned : Bool
  triggeredHealth : Bool
  triggeredResource : Bool

/-- `start_sidecar` (main.rs:138-175).  `verify` is the outcome of
`verify_sidecar_integrity` for the current app handle, `spawn` the
outcome of the OS spawn.  Faithful shape: if a handle is present return
`Ok(true)` immediately (main.rs:144-146); otherwise verify, spawn, store
the handle, and call `start_health_monitor` (main.rs:173).  No call to
`start_resource_monitor` occurs anywhere in `start_sidecar`. -/
def start_sidecar (s : SidecarState) (verify : Except String Unit)
    (spawn : SpawnOutcome) : StartResult :=
  if s.process.isSome then
    { state := s, result := Except.ok true, verified := false
      spawned := false, triggeredHealth := false, triggeredResource := false }
  else
    match verify with
    | Except.error e =>
      { state := s, result := Except.error e, verified := true
        spawned := false, triggeredHealth := false, triggeredResource := false }
    | Except.ok _ =>
      match spawn with
      | SpawnOutcome.fail e =>
        { state := s, result := Except.error e, verified := true
          spawned := false, triggeredHealth := false, triggeredResource := false }
      | SpawnOutcome.ok h =>
        let s1 := { s with process := some h }
        let s2 := (start_health_monitor s1).1
        { state := s2, result := Except.ok true, verified := true
          spawned := true, triggeredHealth := true, triggeredResource := false }

/-- Outcome of `CommandChild::kill` — `stop_sidecar` discards it
(main.rs:181, `let _ = child.kill()`). -/
inductive KillOutcome where
  | ok
  | fail
deriving DecidableEq, Repr

/-- `stop_sidecar` (main.rs:177-186): take the handle out of the state if
present and kill it, ignoring the kill outcome.  The extra `Bool` in the
result records whether a kill was issued. -/
def stop_sidecar (s : SidecarState) (kill : KillOutcome) :
    SidecarState × Except String Bool × Bool :=
  match s.process, kill with
  | some _, _ => ({ s with process := none }, Except.ok true, true)
  | none, _ => (s, Except.ok false, false)

/-- The setup hook in `main` (main.rs:346-354): the resource monitor's
start sequence is spawned there on the fresh state, once, at application
startup. -/
def main_setup : SidecarState × Bool :=
  start_resource_monitor SidecarState.new

/-- Rust's `Option::zip`: `some` when both are, `none` otherwise. -/
def optZip : Option α → Option β → Option (α × β)
  | some a, some b => some (a, b)
  | _, _ => none

/-- The throttling derivation in the resource-sampling loop
(main.rs:319-324).  The `f32` sensor readings are modelled as rationals;
only order comparisons against the literal thresholds are performed on
them, exactly as in the source. -/
def throttled (cpu_usage : Rat) (cpu_temp : Option Rat)
    (battery_pct : Option Rat) (on_ac_power : Option Bool) : Bool :=
  decide (cpu_usage > 70)
    || (cpu_temp.map (fun temp => decide (temp > 85))).getD false
    || ((optZip battery_pct on_ac_power).map
          (fun p => decide (p.1 < 30) && !p.2)).getD false

/-- Outcome of the timed `TcpStream::connect` in `check_sidecar_health`
(main.rs:40-43): connected, connection error, or the 2-second timeout
elapsing. -/
inductive ConnectOutcome where
  | connected
  | connectFailed
  | timedOut
deriving DecidableEq, Repr

/-- `check_sidecar_health` (main.rs:35-48): every match arm returns `Ok`
(main.rs:44-46). -/
def check_sidecar_health (port : Nat) (outcome : ConnectOutcome) :
    Except String Bool :=
  match outcome with
  | ConnectOutcome.connected => Except.ok true
  | ConnectOutcome.connectFailed => Except.ok false
  | ConnectOutcome.timedOut => Except.ok false

/-- Failure injection for `write_json_atomic`: which of the fallible
filesystem steps fails (each step in the source can fail
independently). -/
structure Faults where
  createDirFails : Bool
  createTmpFails : Bool
  writePayloadFails : Bool
  writeNewlineFails : Bool
  flushFails : Bool
  syncFails : Bool
  renameFails : Bool
deriving DecidableEq, Repr

/-- The fault-free run. -/
def Faults.none : Faults :=
  { createDirFails := false, createTmpFails := false
    writePayloadFails := false, writeNewlineFails := false
    flushFails := false, syncFails := false, renameFails := false }

/-- The slice of the filesystem `write_json_atomic` touches: the target
path's contents and the temporary sibling (`path.with_extension("tmp")`)
contents; `none` = file absent. -/
structure FState where
  tmp : Option String
  target : Option String
deriving DecidableEq, Repr

/-- `write_json_atomic` (main.rs:196-217), step for step: create the
parent directory, create the temporary sibling file, write the payload,
write one newline, flush, sync, rename the temporary file over the
target.  Each step checks its fault flag and returns the source's error
(message prefix) on failure, leaving the filesystem as the earlier steps
left it. -/
def write_json_atomic (f : Faults) (fs : FState) (payload : String) :
    FState × Except String Unit :=
  if f.createDirFails then
    (fs, Except.error "Failed to create parent directory")
  else if f.createTmpFails then
    (fs, Except.error "Failed to create temporary file")
  else
    let fs1 : FState := { fs with tmp := some "" }
    if f.writePayloadFails then
      (fs1, Except.error "Failed to write temporary file")
    else
      let fs2 : FState := { fs1 with tmp := some payload }
      if f.writeNewlineFails then
        (fs2, Except.error "Failed to write newline")
      else
        let fs3 : FState := { fs2 with tmp := some (payload ++ "\n") }
        if f.flushFails then
          (fs3, Except.error "Failed to flush")
        else if f.syncFails then
          (fs3, Except.error "Failed to sync")
        else if f.renameFails then
          (fs3, Except.error "Failed to move temporary file over target")
        else
          ({ tmp := Option.none, target := fs3.tmp }, Except.ok ())

/-- Claim C1: for an executable file and a digest file that both exist
and parse, `verify_sidecar_integrity` succeeds iff the SHA-256 digest
obtained by streaming the executable in 1 MiB chunks equals, byte for
byte, the bytes decoded from the digest file; on mismatch it returns the
checksum-mismatch error. -/
theorem C1_verify_integrity (sha : List Nat → List Nat) (exe : List Nat)
    (digest : List Char) (expected : List Nat)
    (hparse : read_checksum digest = Except.ok expected) :
    (verify_sidecar_integrity sha (some exe) (some digest) = Except.ok ()
        ↔ sha (hashFeed [] exe) = expected) ∧
    sha (hashFeed [] exe) = sha exe ∧
    (sha exe ≠ expected →
        verify_sidecar_integrity sha (some exe) (some digest)
          = Except.error "Sidecar checksum mismatch") := by
  by_cases h : sha exe = expected <;>
    simp [verify_sidecar_integrity, hparse, hashFeed_nil, h]

/-- Witness for C1 at a toy hash (the identity function), executable
bytes `[1, 2]` and digest file text `"0102"`. -/
theorem C1_verify_integrity_witness :
    read_checksum ['0', '1', '0', '2'] = Except.ok [1, 2] ∧
    verify_sidecar_integrity (fun l => l) (some [1, 2])
      (some ['0', '1', '0', '2']) = Except.ok () :=
  ⟨rfl,
   (C1_verify_integrity (fun l => l) [1, 2] ['0', '1', '0', '2'] [1, 2]
      rfl).1.mpr (by rw [hashFeed_nil])⟩

/-- Claim C9: digest-file parsing depends only on the first
whitespace-delimited token (trailing tokens are ignored); no token at
all gives the missing-digest error, a first token that is not valid hex
gives the invalid-format error, and the two errors are distinct. -/
theorem C9_first_token :
    (∀ (c1 c2 tok : List Char) (r1 r2 : List (List Char)),
        splitWS c1 = tok :: r1 → splitWS c2 = tok :: r2 →
        read_checksum c1 = read_checksum c2) ∧
    (∀ c : List Char, splitWS c = [] →
        read_checksum c = Except.error "Checksum file missing digest") ∧
    (∀ (c tok : List Char) (r : List (List Char)),
        splitWS c = tok :: r → fromHexChars tok = none →
        read_checksum c = Except.error "Invalid checksum format") ∧
    ("Invalid checksum format" : String) ≠ "Checksum file missing digest" := by
  refine ⟨?_, ?_, ?_, by decide⟩
  · intro c1 c2 tok r1 r2 h1 h2
    simp [read_checksum, h1, h2]
  · intro c h
    simp [read_checksum, h]
  · intro c tok r h1 h2
    simp [read_checksum, h1, h2]

/-- Witness for C9: digest `"ab x"` parses like `"ab"`, a blank file
reports a missing digest, `"zq"` reports an invalid format. -/
theorem C9_first_token_witness :
    read_checksum ['a', 'b', ' ', 'x'] = read_checksum ['a', 'b'] ∧
    read_checksum [' '] = Except.error "Checksum file missing digest" ∧
    read_checksum ['z', 'q'] = Except.error "Invalid checksum format" :=
  ⟨C9_first_token.1 ['a', 'b', ' ', 'x'] ['a', 'b'] ['a', 'b'] [['x']] []
      rfl rfl,
   C9_first_token.2.1 [' '] rfl,
   C9_first_token.2.2.1 ['z', 'q'] ['z', 'q'] [] rfl rfl⟩

/-- Claim C3: the derived `throttled` flag is true iff CPU usage exceeds
70, or a present CPU temperature exceeds 85, or battery percentage and
AC state are both present with battery below 30 and AC off; and the
concrete sample (usage 10, temp 40, battery 20, on AC) is not
throttled. -/
theorem C3_throttled_iff :
    (∀ (u : Rat) (t b : Option Rat) (a : Option Bool),
        throttled u t b a = true ↔
          (u > 70 ∨ (∃ temp, t = some temp ∧ temp > 85) ∨
           (∃ pct ac, b = some pct ∧ a = some ac ∧ pct < 30 ∧ ac = false))) ∧
    throttled 10 (some 40) (some 20) (some true) = false := by
  constructor
  · intro u t b a
    cases t <;> cases b <;> cases a <;>
      simp [throttled, optZip, and_assoc, or_assoc]
  · decide

/-- Claim C10: the single-shot health check never returns an error: a
successful connection yields `Ok(true)`, a connection failure or the
2-second timeout yields `Ok(false)`. -/
theorem C10_health_check_total :
    ∀ (port : Nat) (o : ConnectOutcome),
      (∃ b, check_sidecar_health port o = Except.ok b) ∧
      (∀ e, check_sidecar_health port o ≠ Except.error e) ∧
      (check_sidecar_health port o = Except.ok true
        ↔ o = ConnectOutcome.connected) := by
  intro port o
  cases o <;> simp [check_sidecar_health]

/-- Witness for C10 at port 8000 with a successful connection. -/
theorem C10_health_check_total_witness :
    check_sidecar_health 8000 ConnectOutcome.connected = Except.ok true :=
  (C10_health_check_total 8000 ConnectOutcome.connected).2.2.mpr rfl

theorem start_health_monitor_flag (s : SidecarState) :
    (start_health_monitor s).1.health_task_running = true := by
  unfold start_health_monitor
  split <;> simp_all

theorem start_health_monitor_process (s : SidecarState) :
    (start_health_monitor s).1.process = s.process := by
  unfold start_health_monitor
  split <;> rfl

/-- Counterexample to claim C2: on the fully successful `start_sidecar`
run from the fresh state, the call succeeds and spawns a process, yet
the resource-monitor start sequence is never invoked and the
resource-task flag stays `false` — `start_sidecar` only calls
`start_health_monitor` (main.rs:173); `start_resource_monitor` is
invoked from `main`'s setup hook instead (main.rs:351-354). -/
theorem C2_counterexample :
    (start_sidecar SidecarState.new (Except.ok ()) (SpawnOutcome.ok 1)).result
        = Except.ok true ∧
    (start_sidecar SidecarState.new (Except.ok ()) (SpawnOutcome.ok 1)).spawned
        = true ∧
    (start_sidecar SidecarState.new (Except.ok ())
        (SpawnOutcome.ok 1)).triggeredResource = false ∧
    (start_sidecar SidecarState.new (Except.ok ())
        (SpawnOutcome.ok 1)).state.resource_task_running = false :=
  ⟨rfl, rfl, rfl, rfl⟩

/-- Claim C2 as amended: after a successful spawn, `start_sidecar`
triggers the Health Prober start sequence (idempotently, gated by its
flag) before returning, but not the Resource Sampler start sequence —
that one is triggered once at application setup in `main`. -/
theorem C2_start_triggers_health_only (s : SidecarState) (h : Nat)
    (hnone : s.process = none) :
    ((start_sidecar s (Except.ok ()) (SpawnOutcome.ok h)).triggeredHealth
        = true ∧
     (start_sidecar s (Except.ok ())
        (SpawnOutcome.ok h)).state.health_task_running = true ∧
     (start_sidecar s (Except.ok ()) (SpawnOutcome.ok h)).triggeredResource
        = false) ∧
    (main_setup.1.resource_task_running = true ∧ main_setup.2 = true) := by
  refine ⟨⟨?_, ?_, ?_⟩, by decide, by decide⟩ <;>
    simp [start_sidecar, hnone, start_health_monitor_flag]

/-- Witness for the amended C2 at the fresh state and handle 1. -/
theorem C2_start_triggers_health_only_witness :
    (start_sidecar SidecarState.new (Except.ok ())
        (SpawnOutcome.ok 1)).state.health_task_running = true :=
  (C2_start_triggers_health_only SidecarState.new 1 rfl).1.2.1

theorem start_health_monitor_noop (s : SidecarState)
    (htrue : s.health_task_running = true) :
    start_health_monitor s = (s, false) := by
  simp [start_health_monitor, htrue]

theorem start_resource_monitor_noop (s : SidecarState)
    (htrue : s.resource_task_running = true) :
    start_resource_monitor s = (s, false) := by
  simp [start_resource_monitor, htrue]

theorem runHealthStarts_flag_set (s : SidecarState)
    (htrue : s.health_task_running = true) :
    ∀ n, runHealthStarts s n = (s, 0) := by
  intro n
  induction n with
  | zero => rfl
  | succ m ih => simp [runHealthStarts, start_health_monitor, htrue, ih]

theorem runResourceStarts_flag_set (s : SidecarState)
    (htrue : s.resource_task_running = true) :
    ∀ n, runResourceStarts s n = (s, 0) := by
  intro n
  induction n with
  | zero => rfl
  | succ m ih => simp [runResourceStarts, start_resource_monitor, htrue, ih]

/-- Claim C4: each monitor-start function checks and sets its flag in
one critical section — embedded here as a single atomic step on the
state, mirroring the single `state.lock().await` that covers both the
check and the set — so any number of successive start attempts of
either kind spawns at most one loop, and once a call has run, the flag
is `true` and the next call returns without spawning. -/
theorem C4_at_most_one_loop :
    ∀ (s : SidecarState) (n : Nat),
      (runHealthStarts s n).2 ≤ 1 ∧
      (runResourceStarts s n).2 ≤ 1 ∧
      ((start_health_monitor s).1.health_task_running = true ∧
        start_health_monitor (start_health_monitor s).1
          = ((start_health_monitor s).1, false)) ∧
      ((start_resource_monitor s).1.resource_task_running = true ∧
        start_resource_monitor (start_resource_monitor s).1
          = ((start_resource_monitor s).1, false)) := by
  intro s n
  have hflag : (start_health_monitor s).1.health_task_running = true :=
    start_health_monitor_flag s
  have rflag : (start_resource_monitor s).1.resource_task_running = true := by
    unfold start_resource_monitor
    split <;> simp_all
  refine ⟨?_, ?_, ⟨hflag, ?_⟩, ⟨rflag, ?_⟩⟩
  · cases n with
    | zero => simp [runHealthStarts]
    | succ m =>
      by_cases hf : s.health_task_running
      · simp [runHealthStarts_flag_set s hf]
      · simp [runHealthStarts, start_health_monitor, hf,
          runHealthStarts_flag_set { s with health_task_running := true } rfl m]
  · cases n with
    | zero => simp [runResourceStarts]
    | succ m =>
      by_cases hf : s.resource_task_running
      · simp [runResourceStarts_flag_set s hf]
      · simp [runResourceStarts, start_resource_monitor, hf,
          runResourceStarts_flag_set
            { s with resource_task_running := true } rfl m]
  · exact start_health_monitor_noop _ hflag
  · exact start_resource_monitor_noop _ rflag

/-- Claim C5: `write_json_atomic` writes the payload plus one trailing
newline through a temporary sibling file and renames it over the target;
on success the target holds exactly `payload ++ "\n"`, and on any
failure it returns a descriptive error while the target keeps its
previous contents (the rename either never ran or did not take
effect). -/
theorem C5_atomic_write (f : Faults) (fs : FState) (payload : String) :
    ((write_json_atomic f fs payload).2 = Except.ok () →
        (write_json_atomic f fs payload).1.target = some (payload ++ "\n")) ∧
    ((write_json_atomic f fs payload).2 ≠ Except.ok () →
        (∃ msg, (write_json_atomic f fs payload).2 = Except.error msg) ∧
        (write_json_atomic f fs payload).1.target = fs.target) := by
  obtain ⟨cd, ct, wp, wn, fl, sy, rn⟩ := f
  cases cd <;> cases ct <;> cases wp <;> cases wn <;> cases fl <;>
    cases sy <;> cases rn <;> simp [write_json_atomic]

/-- Witness for C5: the fault-free run replaces the target, a run whose
rename fails leaves the old target contents in place. -/
theorem C5_atomic_write_witness :
    (write_json_atomic Faults.none ⟨Option.none, some "old"⟩ "x").1.target
        = some ("x" ++ "\n") ∧
    (write_json_atomic { Faults.none with renameFails := true }
        ⟨Option.none, some "old"⟩ "x").1.target = some "old" :=
  ⟨(C5_atomic_write Faults.none ⟨Option.none, some "old"⟩ "x").1 rfl,
   ((C5_atomic_write { Faults.none with renameFails := true }
      ⟨Option.none, some "old"⟩ "x").2
      (by simp [write_json_atomic, Faults.none])).2⟩

theorem start_sidecar_running (t : SidecarState) (v : Except String Unit)
    (sp : SpawnOutcome) (ht : t.process.isSome = true) :
    (start_sidecar t v sp).spawned = false ∧
    (start_sidecar t v sp).result = Except.ok true := by
  simp [start_sidecar, ht]

/-- Claim C6: if a process handle is already present, `start_sidecar`
returns `Ok(true)` without verifying integrity and without spawning, and
the state is unchanged; consequently two consecutive `start` calls from
a stopped state spawn exactly one process, and the second call performs
no spawn and reports success. -/
theorem C6_start_idempotent (s : SidecarState) (v : Except String Unit)
    (sp : SpawnOutcome) (h : Nat) :
    (s.process.isSome = true →
        (start_sidecar s v sp).state = s ∧
        (start_sidecar s v sp).result = Except.ok true ∧
        (start_sidecar s v sp).verified = false ∧
        (start_sidecar s v sp).spawned = false) ∧
    (s.process = none →
        (start_sidecar s (Except.ok ()) (SpawnOutcome.ok h)).spawned = true ∧
        (start_sidecar s (Except.ok ()) (SpawnOutcome.ok h)).state.process
            = some h ∧
        (start_sidecar
            (start_sidecar s (Except.ok ()) (SpawnOutcome.ok h)).state v
            sp).spawned = false ∧
        (start_sidecar
            (start_sidecar s (Except.ok ()) (SpawnOutcome.ok h)).state v
            sp).result = Except.ok true) := by
  constructor
  · intro hp
    simp [start_sidecar, hp]
  · intro hp
    have hfirst :
        (start_sidecar s (Except.ok ()) (SpawnOutcome.ok h)).state.process
          = some h := by
      simp [start_sidecar, hp, start_health_monitor_process]
    have hsome :
        (start_sidecar s (Except.ok ())
          (SpawnOutcome.ok h)).state.process.isSome = true := by
      rw [hfirst]; rfl
    exact ⟨by simp [start_sidecar, hp], hfirst,
      (start_sidecar_running _ v sp hsome).1,
      (start_sidecar_running _ v sp hsome).2⟩

/-- Witness for C6: an already-running state refuses to spawn, the fresh
state spawns. -/
theorem C6_start_idempotent_witness :
    (start_sidecar ⟨some 7, 8000, false, false⟩ (Except.ok ())
        (SpawnOutcome.ok 1)).spawned = false ∧
    (start_sidecar SidecarState.new (Except.ok ())
        (SpawnOutcome.ok 2)).spawned = true :=
  ⟨((C6_start_idempotent ⟨some 7, 8000, false, false⟩ (Except.ok ())
      (SpawnOutcome.ok 1) 1).1 rfl).2.2.2,
   ((C6_start_idempotent SidecarState.new (Except.ok ())
      (SpawnOutcome.ok 2) 2).2 rfl).1⟩

/-- Claim C7: when no handle is stored, a failed integrity verification
makes `start_sidecar` return the verification error with no spawn and an
unchanged state, and a failed OS spawn makes it return the spawn error
with no handle stored. -/
theorem C7_start_failure (s : SidecarState) (e : String) (sp : SpawnOutcome)
    (hnone : s.process = none) :
    ((start_sidecar s (Except.error e) sp).result = Except.error e ∧
     (start_sidecar s (Except.error e) sp).verified = true ∧
     (start_sidecar s (Except.error e) sp).spawned = false ∧
     (start_sidecar s (Except.error e) sp).state = s) ∧
    ((start_sidecar s (Except.ok ()) (SpawnOutcome.fail e)).result
        = Except.error e ∧
     (start_sidecar s (Except.ok ()) (SpawnOutcome.fail e)).spawned = false ∧
     (start_sidecar s (Except.ok ()) (SpawnOutcome.fail e)).state.process
        = none) := by
  simp [start_sidecar, hnone]

/-- Witness for C7: a failing verification at the fresh state surfaces
its error. -/
theorem C7_start_failure_witness :
    (start_sidecar SidecarState.new (Except.error "boom")
        (SpawnOutcome.ok 3)).result = Except.error "boom" :=
  ((C7_start_failure SidecarState.new "boom" (SpawnOutcome.ok 3) rfl).1).1

/-- Claim C8: with a handle present, `stop_sidecar` clears the handle,
issues a kill whose outcome it ignores, and returns `Ok(true)`; without
a handle it returns `Ok(false)` and issues no kill; a second stop after
a successful one therefore returns `Ok(false)` — all regardless of
whether the kill itself fails. -/
theorem C8_stop_safe (s : SidecarState) (k1 k2 : KillOutcome) (h : Nat) :
    (s.process = some h →
        stop_sidecar s k1 = ({ s with process := none }, Except.ok true, true) ∧
        stop_sidecar { s with process := none } k2
          = ({ s with process := none }, Except.ok false, false)) ∧
    (s.process = none → stop_sidecar s k1 = (s, Except.ok false, false)) := by
  obtain ⟨p, pt, hf, rf⟩ := s
  constructor
  · intro hp
    cases hp
    cases k1 <;> cases k2 <;> exact ⟨rfl, rfl⟩
  · intro hp
    cases hp
    cases k1 <;> rfl

/-- Witness for C8: stopping a running state succeeds even when the kill
itself fails; stopping the stopped state reports not running. -/
theorem C8_stop_safe_witness :
    stop_sidecar ⟨some 5, 8000, false, false⟩ KillOutcome.fail
        = (⟨Option.none, 8000, false, false⟩, Except.ok true, true) ∧
    stop_sidecar ⟨Option.none, 8000, false, false⟩ KillOutcome.ok
        = (⟨Option.none, 8000, false, false⟩, Except.ok false, false) :=
  ⟨((C8_stop_safe ⟨some 5, 8000, false, false⟩ KillOutcome.fail
      KillOutcome.ok 5).1 rfl).1,
   (C8_stop_safe ⟨Option.none, 8000, false, false⟩ KillOutcome.ok
      KillOutcome.fail 5).2 rfl⟩

end ProjectDawn
